import Mathlib

/-!
Shallow embedding of `epic/logging/logregator.py` (package `epic-logging`):
the `LogregatorHandler`, `LogregatorProcess`, `Logregator` and `Logtor`
classes, together with the state of the global logging backbone
(`logging.root`) and of the handoff queue, and proofs of the specified
properties of this code.

Python's `logging` levels are natural numbers (`NOTSET = 0`, `INFO = 20`,
`WARNING = 30`).  Object identity of handler objects and of queue objects is
modelled by numeric ids (`hid`, `queue_ref`).
-/

def NOTSET : Nat := 0
def INFO : Nat := 20
def WARNING : Nat := 30

/-- A `logging.LogRecord`, restricted to the attributes the logregator code
reads or writes: logger `name`, `levelno`, the format string `msg`, the
structured exception info `exc_info` (modelled as the list of lines that
`traceback.format_exception` would return for it), the rendered `exc_text`,
and the dynamic `__logregator` attribute (`none` when the attribute was never
set on the record). -/
structure LogRecord where
  name : String
  levelno : Nat
  msg : String
  exc_info : Option (List String)
  exc_text : Option String
  logregator_mark : Option Bool
deriving DecidableEq

/-- A freshly created log record: no `exc_text` and no `__logregator`
attribute. -/
def make_record (name : String) (levelno : Nat) (msg : String)
    (exc_info : Option (List String)) : LogRecord :=
  ⟨name, levelno, msg, exc_info, none, none⟩

/-- Rendering of structured exception info to text:
`'\n'.join(traceback.format_exception(*record.exc_info))`. -/
def format_exception (e : List String) : String :=
  String.intercalate "\n" e

/-- Modelled from the spec: the handoff channel is an `IterableQueue` from
`epic.common.queue`, which is not part of this repository.  Per the source
comment in `LogregatorHandler.emit` ("If the input queue was closed, suppress
error") and the spec's channel contract, `put` on a closed queue raises
`queue.Full`, modelled as `Except.error ()`; `no_more_input` closes the
queue. -/
structure IterableQueue (α : Type) where
  closed : Bool
  items : List α
deriving DecidableEq

def IterableQueue.put {α : Type} (q : IterableQueue α) (x : α) :
    Except Unit (IterableQueue α) :=
  if q.closed then Except.error ()
  else Except.ok { q with items := q.items ++ [x] }

def IterableQueue.no_more_input {α : Type} (q : IterableQueue α) :
    IterableQueue α :=
  { q with closed := true }

/-- A `LogregatorHandler`: its identity `hid`, its `level`, the identity
`queue_ref` of its `output_queue`, and its `_old_root_level`. -/
structure LogregatorHandler where
  hid : Nat
  level : Nat
  queue_ref : Nat
  old_root_level : Option Nat
deriving DecidableEq

/-- An entry of `logging.root.handlers`: the handler object as seen from the
backbone (identity, whether it is a `LogregatorHandler`, and the serializable
attributes that `LogregatorProcess` snapshots). -/
structure RootHandler where
  hid : Nat
  is_logregator : Bool
  level : Nat
  queue_ref : Nat
deriving DecidableEq

/-- The state of the global backbone `logging.root`: its `level` and its
`handlers` list. -/
structure RootLogger where
  level : Nat
  handlers : List RootHandler
deriving DecidableEq

/-- The backbone entry corresponding to a `LogregatorHandler` object. -/
def LogregatorHandler.entry (h : LogregatorHandler) : RootHandler :=
  ⟨h.hid, true, h.level, h.queue_ref⟩

/-- `self in logging.root.handlers` (object identity). -/
def LogregatorHandler.registered (h : LogregatorHandler) (root : RootLogger) :
    Bool :=
  root.handlers.any (fun e => e.hid == h.hid)

/-- `LogregatorHandler.install`: no-op if already registered; otherwise save
`logging.root.level` into `_old_root_level`, set the root level to
`NOTSET + 1` and append the handler to `logging.root.handlers`. -/
def LogregatorHandler.install (h : LogregatorHandler) (root : RootLogger) :
    LogregatorHandler × RootLogger :=
  if h.registered root then (h, root)
  else ({ h with old_root_level := some root.level },
        { level := NOTSET + 1, handlers := root.handlers ++ [h.entry] })

/-- `LogregatorHandler.uninstall`: no-op if not registered; if registered but
`_old_root_level` is `None`, raise
`RuntimeError("Cannot uninstall, LogregatorHandler was not properly installed.")`;
otherwise remove the handler from `logging.root.handlers` and restore the
saved root level. -/
def LogregatorHandler.uninstall (h : LogregatorHandler) (root : RootLogger) :
    Except String (LogregatorHandler × RootLogger) :=
  if h.registered root then
    match h.old_root_level with
    | none =>
        Except.error
          "Cannot uninstall, LogregatorHandler was not properly installed."
    | some lvl =>
        Except.ok (h, { level := lvl,
                        handlers :=
                          root.handlers.eraseP (fun e => e.hid == h.hid) })
  else Except.ok (h, root)

/-- `LogregatorHandler.mark_as_handled`: `setattr(record, "__logregator", True)`. -/
def LogregatorHandler.mark_as_handled (r : LogRecord) : LogRecord :=
  { r with logregator_mark := some true }

/-- `LogregatorHandler.is_handled`: `getattr(record, "__logregator", False)`. -/
def LogregatorHandler.is_handled (r : LogRecord) : Bool :=
  r.logregator_mark.getD false

/-- `LogregatorHandler.emit`: ignore already-handled records; drop records
below the handler's level; render `exc_info` into `exc_text` and clear it;
then `put((os.getpid(), record))`, suppressing `queue.Full`.  Returns the
(possibly mutated) record and the resulting queue state. -/
def LogregatorHandler.emit (h : LogregatorHandler) (pid : Nat) (r : LogRecord)
    (q : IterableQueue (Nat × LogRecord)) :
    LogRecord × IterableQueue (Nat × LogRecord) :=
  if LogregatorHandler.is_handled r then (r, q)
  else if h.level ≤ r.levelno then
    let r2 := match r.exc_info with
      | some e =>
          { r with exc_text := some (format_exception e), exc_info := none }
      | none => r
    match q.put (pid, r2) with
    | Except.ok q2 => (r2, q2)
    | Except.error _ => (r2, q)
  else (r, q)

/-- The per-record body of `Logregator._consume_logs_proc`: apply the sink
logger's `isEnabledFor` re-check, self-echo suppression, attribution, message
rewrite and handled-marking; `some` is the record handed to
`self.logger.handle`, `none` means the record was dropped (`continue`). -/
def consume_step (logger_name : String) (logger_level : Nat) (my_pid : Nat)
    (pid : Nat) (r : LogRecord) : Option LogRecord :=
  if ¬ logger_level ≤ r.levelno then none
  else
    let addendum := logger_name
    if my_pid ≠ pid then
      let addendum := addendum ++ " PID " ++ toString pid
      some (LogregatorHandler.mark_as_handled
        { r with msg := "[" ++ addendum ++ "] - " ++ r.msg })
    else if r.name = logger_name then none
    else
      some (LogregatorHandler.mark_as_handled
        { r with msg := "[" ++ addendum ++ "] - " ++ r.msg })

/-- The whole consumer loop `Logregator._consume_logs_proc` over the drained
queue contents: the records dispatched to the sink, in arrival order. -/
def consume_logs_proc (logger_name : String) (logger_level : Nat)
    (my_pid : Nat) (inputs : List (Nat × LogRecord)) : List LogRecord :=
  inputs.filterMap (fun p => consume_step logger_name logger_level my_pid p.1 p.2)

/-- The value of a context's `Process` attribute: the original spawn-process
class or the substituted `LogregatorProcess` class. -/
inductive ProcessClass where
  | spawnProcess
  | logregatorProcess
deriving DecidableEq

/-- Process-global mutable state touched by a `Logregator` session: the
backbone `logging.root` and, for each context key of `_old_process`, the
current value of that context's `Process` attribute (`none` models the
attribute having been set to Python `None`). -/
structure GlobalState where
  root : RootLogger
  ctx_process : List (Option ProcessClass)
deriving DecidableEq

/-- A `Logregator` session object: the borrowed sink logger (its name and
effective level), `my_pid`, the `_old_process` saved-primitive mapping (one
entry per context key), `_input_queue`, `_handler` and the consumer-thread
handle (`true` iff `_consumer_thread is not None`). -/
structure Logregator where
  logger_name : String
  logger_level : Nat
  my_pid : Nat
  old_process : List (Option ProcessClass)
  input_queue : Option (IterableQueue (Nat × LogRecord))
  handler : Option LogregatorHandler
  consumer_thread : Bool
deriving DecidableEq

/-- `Logregator.__init__`: no queue, no handler, no thread; `_old_process`
maps each of its `num_ctx` context keys to `None`. -/
def Logregator.init (logger_name : String) (logger_level : Nat) (my_pid : Nat)
    (num_ctx : Nat) : Logregator :=
  ⟨logger_name, logger_level, my_pid, List.replicate num_ctx none,
   none, none, false⟩

/-- `Logregator.started`: `self._consumer_thread is not None`. -/
def Logregator.started (s : Logregator) : Bool :=
  s.consumer_thread

/-- `Logregator.start`: if not started, create the queue, create a handler at
the sink's effective level, `install()` it, save each context's `Process` and
substitute `LogregatorProcess`, then try to create and start the consumer
thread; if thread creation raises (`thread_ok = false`), the `except` clause
only resets `_consumer_thread` to `None`.  `hid` is the identity of the newly
created handler object (also used as the queue reference). -/
def Logregator.start (s : Logregator) (g : GlobalState) (hid : Nat)
    (thread_ok : Bool) : Logregator × GlobalState :=
  if s.started then (s, g)
  else
    let q : IterableQueue (Nat × LogRecord) := ⟨false, []⟩
    let h : LogregatorHandler := ⟨hid, s.logger_level, hid, none⟩
    let ir := h.install g.root
    ({ s with input_queue := some q, handler := some ir.1,
              old_process := g.ctx_process, consumer_thread := thread_ok },
     { root := ir.2,
       ctx_process :=
         g.ctx_process.map (fun _ => some ProcessClass.logregatorProcess) })

/-- `Logregator.stop`: no-op if not started; otherwise close the queue
(`no_more_input`, exceptions swallowed), join and drop the consumer thread,
`uninstall()` and drop the handler, drop the queue and restore each context's
`Process` from `_old_process`.  The `Except` component is the exception
propagating out of `stop()` (an `uninstall` failure, or the
`AttributeError` from `self._handler.uninstall()` when `_handler` is `None`);
in those cases the thread has already been dropped and the queue closed but
the rest of the teardown has not run. -/
def Logregator.stop (s : Logregator) (g : GlobalState) :
    Except String Unit × Logregator × GlobalState :=
  if s.started then
    match s.handler with
    | none =>
        (Except.error "AttributeError: NoneType object has no attribute",
         { s with consumer_thread := false,
                  input_queue := s.input_queue.map IterableQueue.no_more_input },
         g)
    | some h =>
        match h.uninstall g.root with
        | Except.error e =>
            (Except.error e,
             { s with consumer_thread := false,
                      input_queue :=
                        s.input_queue.map IterableQueue.no_more_input },
             g)
        | Except.ok pr =>
            (Except.ok (),
             { s with consumer_thread := false, handler := none,
                      input_queue := none },
             { root := pr.2, ctx_process := s.old_process })
  else (Except.ok (), s, g)

namespace LogregatorProcess

/-- `LogregatorProcess.__init__`: the snapshot
`[(h.level, h.output_queue) for h in logging.root.handlers
  if isinstance(h, LogregatorHandler)]`
taken in the parent process. -/
def snapshot (root : RootLogger) : List (Nat × Nat) :=
  (root.handlers.filter (fun e => e.is_logregator)).map
    (fun e => (e.level, e.queue_ref))

/-- The handler objects reconstructed in the child by `LogregatorProcess.run`:
`[LogregatorHandler(level, output_queue) for level, output_queue in snapshot]`,
with `ids` the identities of the fresh objects. -/
def reconstruct (snap : List (Nat × Nat)) (ids : List Nat) :
    List LogregatorHandler :=
  List.zipWith (fun i p => (⟨i, p.1, p.2, none⟩ : LogregatorHandler)) ids snap

/-- `for h in handlers: h.install()`, threading the backbone state and
collecting the mutated handler objects. -/
def install_all : List LogregatorHandler → RootLogger →
    List LogregatorHandler × RootLogger
  | [], root => ([], root)
  | h :: t, root =>
      let ir := h.install root
      let rest := install_all t ir.2
      (ir.1 :: rest.1, rest.2)

/-- `for h in handlers: h.uninstall()` in the `finally` block: threads the
backbone state; an `uninstall` failure aborts the loop and propagates. -/
def uninstall_all : List LogregatorHandler → RootLogger →
    Except String Unit × RootLogger
  | [], root => (Except.ok (), root)
  | h :: t, root =>
      match h.uninstall root with
      | Except.error e => (Except.error e, root)
      | Except.ok pr => uninstall_all t pr.2

/-- `LogregatorProcess.run` in the child process: reconstruct one handler per
snapshot entry, install them all, run the user's target (whose outcome
`target` is normal or abnormal), and in a `finally` block uninstall them all.
Returns the backbone state the target executes under, the outcome propagating
out of `run`, and the backbone state afterwards. -/
def run (snap : List (Nat × Nat)) (ids : List Nat) (root : RootLogger)
    (target : Except String Unit) :
    RootLogger × Except String Unit × RootLogger :=
  let ir := install_all (reconstruct snap ids) root
  let ur := uninstall_all ir.1 ir.2
  (ir.2,
   match ur.1 with
   | Except.error e => Except.error e
   | Except.ok _ => target,
   ur.2)

end LogregatorProcess

/-- The logger object built by `Logtor.__init__` via the `logger.py`
factories (only its construction parameters are relevant to the claims). -/
inductive LoggerConfig where
  | console_logger (name : String) (level : Nat)
  | file_logger (name : String) (filename : String) (mode : String) (level : Nat)
  | file_and_console_logger (name : String) (filename : String) (mode : String)
      (level : Nat)
deriving DecidableEq

/-- `Logtor.__init__`: default `console` to `filename is None`; with no
filename and `console` false, raise
`ValueError("must provide a filename when console is False")` before any
logger is constructed; otherwise build the console / file-and-console / file
logger. -/
def Logtor_init (filename : Option String) (mode : String) (level : Nat)
    (console : Option Bool) (name : String) : Except String LoggerConfig :=
  let c := console.getD filename.isNone
  match filename with
  | none =>
      if ¬ c then
        Except.error "must provide a filename when console is False"
      else Except.ok (LoggerConfig.console_logger name level)
  | some f =>
      if c then
        Except.ok (LoggerConfig.file_and_console_logger name f mode level)
      else Except.ok (LoggerConfig.file_logger name f mode level)

/-- A fresh session over sink logger "S" at effective level `INFO` in process
1, with one context key in `_old_process`. -/
def demo_session : Logregator :=
  Logregator.init "S" INFO 1 1

/-- A fresh global state: backbone at `WARNING` with no handlers, one context
whose `Process` is the original spawn-process class. -/
def demo_global : GlobalState :=
  ⟨⟨WARNING, []⟩, [some ProcessClass.spawnProcess]⟩

/-- A record emitted by worker logger "X" at `INFO` with message "hello". -/
def demo_record : LogRecord := make_record "X" INFO "hello" none

/-- The record the consumer dispatches for `demo_record` arriving from worker
pid 4242 into the "S" session of `demo_session`. -/
def demo_dispatched : LogRecord :=
  LogregatorHandler.mark_as_handled
    { demo_record with msg := "[S PID 4242] - hello" }

/-- C10: `is_handled` is `false` on a freshly created (never marked) record,
`true` on any record after `mark_as_handled`, and `mark_as_handled` is
idempotent. -/
theorem mark_as_handled_spec (name : String) (lvl : Nat) (msg : String)
    (einfo : Option (List String)) (r : LogRecord) :
    LogregatorHandler.is_handled (make_record name lvl msg einfo) = false ∧
    LogregatorHandler.is_handled (LogregatorHandler.mark_as_handled r) = true ∧
    LogregatorHandler.mark_as_handled (LogregatorHandler.mark_as_handled r)
      = LogregatorHandler.mark_as_handled r :=
  ⟨rfl, rfl, rfl⟩

/-- C9: `Logtor` construction with no filename and `console = False` raises
`ValueError` (no logger configuration is produced), and an unspecified
`console` defaults to `filename is None`, so the console is enabled exactly
when no filename is given. -/
theorem logtor_init_spec (mode : String) (level : Nat) (name : String) :
    Logtor_init none mode level (some false) name
      = Except.error "must provide a filename when console is False" ∧
    (∀ filename : Option String,
      Logtor_init filename mode level none name
        = Logtor_init filename mode level (some filename.isNone) name) := by
  refine ⟨rfl, fun filename => ?_⟩
  cases filename <;> rfl

/-- C2 counterexample: calling `uninstall()` on a fresh handler that was
never installed returns normally (a silent no-op), instead of raising the
IllegalState error the claim asserts. -/
theorem uninstall_fresh_is_noop :
    LogregatorHandler.uninstall ⟨0, 20, 0, none⟩ ⟨30, []⟩
      = Except.ok (⟨0, 20, 0, none⟩, ⟨30, []⟩) := rfl

/-- C2 amended: `uninstall()` on a handler that is not registered on the
backbone is a silent no-op; the IllegalState error (`RuntimeError`) is raised
exactly when the handler is registered on the backbone without a recorded
prior root level (i.e. it was added to the backbone without `install()`). -/
theorem uninstall_without_install (h : LogregatorHandler) (root : RootLogger)
    (hnr : h.registered root = false) :
    h.uninstall root = Except.ok (h, root) ∧
    (∀ root2 : RootLogger, h.registered root2 = true →
      h.old_root_level = none →
      h.uninstall root2 = Except.error
        "Cannot uninstall, LogregatorHandler was not properly installed.") := by
  constructor
  · simp [LogregatorHandler.uninstall, hnr]
  · intro root2 hr2 hol
    simp [LogregatorHandler.uninstall, hr2, hol]

/-- Witness for C2's amended theorem at a concrete fresh handler. -/
theorem uninstall_without_install_witness :
    LogregatorHandler.registered ⟨0, 20, 0, none⟩ ⟨30, []⟩ = false ∧
    LogregatorHandler.uninstall ⟨0, 20, 0, none⟩ ⟨30, []⟩
      = Except.ok (⟨0, 20, 0, none⟩, ⟨30, []⟩) :=
  ⟨by decide, (uninstall_without_install ⟨0, 20, 0, none⟩ ⟨30, []⟩ (by decide)).1⟩

/-- C4: a tagged record arriving from the session's own creating process
whose logger name equals the sink's name is dropped by the consumer loop even
when it passes the sink-level re-check: nothing is dispatched and no rewrite
happens. -/
theorem consume_self_echo (ln : String) (lvl mp : Nat) (r : LogRecord)
    (hlev : lvl ≤ r.levelno) (hname : r.name = ln) :
    consume_step ln lvl mp mp r = none := by
  simp [consume_step, hlev, hname]

/-- Witness for C4: a record from logger "S" in the creating process of the
"S" session is suppressed. -/
theorem consume_self_echo_witness :
    INFO ≤ (make_record "S" INFO "hi" none).levelno ∧
    (make_record "S" INFO "hi" none).name = "S" ∧
    consume_step "S" INFO 1 1 (make_record "S" INFO "hi" none) = none :=
  ⟨by decide, rfl,
   consume_self_echo "S" INFO 1 (make_record "S" INFO "hi" none)
     (by decide) rfl⟩

/-- C1 (code bug): `start()` on a fresh session whose consumer-thread
creation fails leaves the session reporting not-started while the handler is
still installed on the backbone (and the backbone level still lowered), the
channel is still retained, and every context's `Process` is still the
substituted `LogregatorProcess` — partial initialization, violating the
claimed invariant that not-started means no handler, no channel, no thread. -/
theorem start_thread_failure_partial_state :
    (demo_session.start demo_global 7 false).1.started = false ∧
    ((demo_session.start demo_global 7 false).1.handler).isSome = true ∧
    ((demo_session.start demo_global 7 false).1.input_queue).isSome = true ∧
    (demo_session.start demo_global 7 false).2.root.handlers
      = [⟨7, true, INFO, 7⟩] ∧
    (demo_session.start demo_global 7 false).2.root.level = NOTSET + 1 ∧
    (demo_session.start demo_global 7 false).2.ctx_process
      = [some ProcessClass.logregatorProcess] := by
  decide

/-- C7: `install()` is an idempotent no-op when the handler is already
registered on the backbone; otherwise it records the backbone's current
level, sets the backbone level to the minimum enabled value `NOTSET + 1` (so
no record of any standard level is filtered before reaching the handler) and
registers the handler; and `uninstall()` of the result removes the handler
and restores the backbone state exactly — install-then-uninstall round-trips
the backbone. -/
theorem install_uninstall_roundtrip (h : LogregatorHandler)
    (root : RootLogger) :
    (h.registered root = true → h.install root = (h, root)) ∧
    (h.registered root = false →
      (h.install root).1.old_root_level = some root.level ∧
      (h.install root).2.level = NOTSET + 1 ∧
      (∀ lvl, NOTSET + 1 ≤ lvl → (h.install root).2.level ≤ lvl) ∧
      LogregatorHandler.registered (h.install root).1 (h.install root).2
        = true ∧
      LogregatorHandler.uninstall (h.install root).1 (h.install root).2
        = Except.ok ((h.install root).1, root)) := by
  constructor
  · intro hr
    simp [LogregatorHandler.install, hr]
  · intro hnr
    have hneg : ∀ e ∈ root.handlers, ¬ ((e.hid == h.hid) = true) := by
      have hnr2 := hnr
      simp only [LogregatorHandler.registered, List.any_eq_false] at hnr2
      exact hnr2
    have hinst : h.install root
        = ({ h with old_root_level := some root.level },
           ⟨NOTSET + 1, root.handlers ++ [h.entry]⟩) := by
      simp [LogregatorHandler.install, hnr]
    have herase : (root.handlers
          ++ [(⟨h.hid, true, h.level, h.queue_ref⟩ : RootHandler)]).eraseP
        (fun e => e.hid == h.hid) = root.handlers := by
      rw [List.eraseP_append_right _ hneg]
      simp
    rw [hinst]
    refine ⟨rfl, rfl, fun lvl hl => hl, ?_, ?_⟩
    · simp [LogregatorHandler.registered, LogregatorHandler.entry]
    · simp [LogregatorHandler.uninstall, LogregatorHandler.registered,
            LogregatorHandler.entry]
      rw [herase]

/-- Witness for C7 at a concrete fresh handler and a backbone holding one
unrelated handler. -/
theorem install_uninstall_roundtrip_witness :
    LogregatorHandler.registered ⟨5, 20, 5, none⟩ ⟨30, [⟨9, false, 0, 0⟩]⟩
      = false ∧
    LogregatorHandler.uninstall
        (LogregatorHandler.install ⟨5, 20, 5, none⟩
          ⟨30, [⟨9, false, 0, 0⟩]⟩).1
        (LogregatorHandler.install ⟨5, 20, 5, none⟩
          ⟨30, [⟨9, false, 0, 0⟩]⟩).2
      = Except.ok ((LogregatorHandler.install ⟨5, 20, 5, none⟩
          ⟨30, [⟨9, false, 0, 0⟩]⟩).1, ⟨30, [⟨9, false, 0, 0⟩]⟩) :=
  ⟨by decide,
   ((install_uninstall_roundtrip ⟨5, 20, 5, none⟩
     ⟨30, [⟨9, false, 0, 0⟩]⟩).2 (by decide)).2.2.2.2⟩

/-- C5: `emit` follows the four-step algorithm: an already-handled record is
returned immediately with nothing enqueued; a record below the handler's
level is dropped silently; a record carrying exception info has it rendered
into `exc_text` and the structured `exc_info` cleared; and the tagged record
`(pid, record)` is appended to the open queue, while a closed queue causes a
silent drop with no error at the call site. -/
theorem emit_four_step (h : LogregatorHandler) (pid : Nat) (r : LogRecord)
    (q : IterableQueue (Nat × LogRecord)) :
    (LogregatorHandler.is_handled r = true → h.emit pid r q = (r, q)) ∧
    (LogregatorHandler.is_handled r = false → r.levelno < h.level →
      h.emit pid r q = (r, q)) ∧
    (LogregatorHandler.is_handled r = false → h.level ≤ r.levelno →
      ∀ e, r.exc_info = some e →
        (h.emit pid r q).1.exc_text = some (format_exception e) ∧
        (h.emit pid r q).1.exc_info = none) ∧
    (LogregatorHandler.is_handled r = false → h.level ≤ r.levelno →
      q.closed = false →
      (h.emit pid r q).2.items = q.items ++ [(pid, (h.emit pid r q).1)]) ∧
    (LogregatorHandler.is_handled r = false → h.level ≤ r.levelno →
      q.closed = true → (h.emit pid r q).2 = q) := by
  refine ⟨?_, ?_, ?_, ?_, ?_⟩
  · intro hm
    simp [LogregatorHandler.emit, hm]
  · intro hm hlt
    simp [LogregatorHandler.emit, hm, Nat.not_le.mpr hlt]
  · intro hm hle e hei
    cases hq : q.closed <;>
      simp [LogregatorHandler.emit, hm, hle, hei, IterableQueue.put, hq]
  · intro hm hle hq
    cases hrei : r.exc_info <;>
      simp [LogregatorHandler.emit, hm, hle, hrei, IterableQueue.put, hq]
  · intro hm hle hq
    cases hrei : r.exc_info <;>
      simp [LogregatorHandler.emit, hm, hle, hrei, IterableQueue.put, hq]

/-- Witness for C5: a record with exception info emitted into an open queue
by a handler at `INFO`. -/
theorem emit_four_step_witness :
    LogregatorHandler.is_handled (make_record "X" INFO "boom" (some ["T1", "T2"]))
      = false ∧
    INFO ≤ (make_record "X" INFO "boom" (some ["T1", "T2"])).levelno ∧
    (LogregatorHandler.emit ⟨0, INFO, 0, none⟩ 4242
        (make_record "X" INFO "boom" (some ["T1", "T2"]))
        ⟨false, []⟩).1.exc_text = some (format_exception ["T1", "T2"]) ∧
    (LogregatorHandler.emit ⟨0, INFO, 0, none⟩ 4242
        (make_record "X" INFO "boom" (some ["T1", "T2"]))
        ⟨false, []⟩).1.exc_info = none :=
  ⟨rfl, by decide,
   ((emit_four_step ⟨0, INFO, 0, none⟩ 4242
      (make_record "X" INFO "boom" (some ["T1", "T2"]))
      ⟨false, []⟩).2.2.1 rfl (by decide) ["T1", "T2"] rfl).1,
   ((emit_four_step ⟨0, INFO, 0, none⟩ 4242
      (make_record "X" INFO "boom" (some ["T1", "T2"]))
      ⟨false, []⟩).2.2.1 rfl (by decide) ["T1", "T2"] rfl).2⟩

/-- C3: every record the consumer loop dispatches to the sink has its message
rewritten to "[attribution] - original", where the attribution is the sink
logger's name with " PID pid" appended exactly when the origin pid differs
from the session's creating process id. -/
theorem consume_dispatch_attribution (ln : String) (lvl mp pid : Nat)
    (r r2 : LogRecord) (hd : consume_step ln lvl mp pid r = some r2) :
    r2.msg = "[" ++ ln
      ++ (if mp = pid then "" else " PID " ++ toString pid)
      ++ "] - " ++ r.msg := by
  unfold consume_step at hd
  by_cases hl : lvl ≤ r.levelno
  · simp only [hl, not_true_eq_false, if_false, ite_not] at hd
    by_cases hmp : mp = pid
    · subst hmp
      simp only [ne_eq, not_true_eq_false, if_false, ite_not] at hd
      by_cases hnm : r.name = ln
      · simp [hnm] at hd
      · simp only [hnm, if_false] at hd
        cases hd
        simp [LogregatorHandler.mark_as_handled, String.append_assoc]
    · simp only [ne_eq, hmp, not_false_eq_true, if_true] at hd
      cases hd
      simp [LogregatorHandler.mark_as_handled, hmp, String.append_assoc]
  · simp [hl] at hd

/-- Witness for C3 on the spec's concrete scenario: sink "S", worker pid
4242, message "hello" yields "[S PID 4242] - hello". -/
theorem consume_dispatch_attribution_witness :
    consume_step "S" INFO 1 4242 demo_record = some demo_dispatched ∧
    demo_dispatched.msg = "[" ++ "S"
      ++ (if (1 : Nat) = 4242 then "" else " PID " ++ toString (4242 : Nat))
      ++ "] - " ++ demo_record.msg ∧
    demo_dispatched.msg = "[S PID 4242] - hello" :=
  ⟨by decide,
   consume_dispatch_attribution "S" INFO 1 4242 demo_record demo_dispatched
     (by decide),
   rfl⟩

/-- A handler whose identity is fresh for the backbone is not registered on
it. -/
theorem registered_eq_false_of_fresh (h : LogregatorHandler)
    (root : RootLogger) (hfresh : ∀ e ∈ root.handlers, e.hid ≠ h.hid) :
    h.registered root = false := by
  simp only [LogregatorHandler.registered, List.any_eq_false]
  intro e he
  simpa using hfresh e he

/-- C8: `stop()` on a session that is not started is a no-op; after any
successful `stop()` a second `stop()` leaves session and global state
unchanged; and `start()` after `stop()` (with a fresh handler identity and a
successfully created thread) re-establishes a fully working session: started,
with handler and channel present, and stoppable again without error. -/
theorem stop_idempotent_restart (s : Logregator) (g : GlobalState)
    (hid : Nat) :
    (s.started = false → s.stop g = (Except.ok (), s, g)) ∧
    (∀ s1 g1, s.stop g = (Except.ok (), s1, g1) →
      s1.stop g1 = (Except.ok (), s1, g1) ∧
      ((∀ e ∈ g1.root.handlers, e.hid ≠ hid) →
        (s1.start g1 hid true).1.started = true ∧
        ((s1.start g1 hid true).1.handler).isSome = true ∧
        ((s1.start g1 hid true).1.input_queue).isSome = true ∧
        ((s1.start g1 hid true).1.stop (s1.start g1 hid true).2).1
          = Except.ok ())) := by
  have hnostop : ∀ (s2 : Logregator) (g2 : GlobalState), s2.started = false →
      s2.stop g2 = (Except.ok (), s2, g2) := by
    intro s2 g2 hns
    simp [Logregator.stop, hns]
  constructor
  · exact hnostop s g
  · intro s1 g1 hstop
    have hs1 : s1.started = false := by
      by_cases hs : s.started
      · cases hh : s.handler with
        | none => simp [Logregator.stop, hs, hh] at hstop
        | some h =>
          cases hu : h.uninstall g.root with
          | error e => simp [Logregator.stop, hs, hh, hu] at hstop
          | ok pr =>
            simp only [Logregator.stop, hs, if_true, hh, hu,
              Prod.mk.injEq] at hstop
            rw [← hstop.2.1]
            rfl
      · have hns : s.started = false := by simpa using hs
        rw [hnostop s g hns] at hstop
        simp only [Prod.mk.injEq] at hstop
        rw [← hstop.2.1]
        exact hns
    refine ⟨hnostop s1 g1 hs1, ?_⟩
    intro hfresh
    have hreg : LogregatorHandler.registered
        ⟨hid, s1.logger_level, hid, none⟩ g1.root = false :=
      registered_eq_false_of_fresh _ _ (fun e he => hfresh e he)
    have hstart : s1.start g1 hid true
        = ({ s1 with
              input_queue := some ⟨false, []⟩,
              handler := some ⟨hid, s1.logger_level, hid, some g1.root.level⟩,
              old_process := g1.ctx_process,
              consumer_thread := true },
           { root := ⟨NOTSET + 1, g1.root.handlers
                        ++ [⟨hid, true, s1.logger_level, hid⟩]⟩,
             ctx_process := g1.ctx_process.map
               (fun _ => some ProcessClass.logregatorProcess) }) := by
      simp [Logregator.start, hs1, LogregatorHandler.install, hreg,
            LogregatorHandler.entry]
    rw [hstart]
    refine ⟨rfl, rfl, rfl, ?_⟩
    have hreg2 : LogregatorHandler.registered
        ⟨hid, s1.logger_level, hid, some g1.root.level⟩
        ⟨NOTSET + 1, g1.root.handlers ++ [⟨hid, true, s1.logger_level, hid⟩]⟩
          = true := by
      simp [LogregatorHandler.registered]
    simp [Logregator.stop, Logregator.started, LogregatorHandler.uninstall,
          hreg2]

/-- Witness for C8: a fresh session is stopped (no-op), remains stoppable,
and restarts into a working, stoppable session. -/
theorem stop_idempotent_restart_witness :
    demo_session.stop demo_global = (Except.ok (), demo_session, demo_global) ∧
    (demo_session.start demo_global 7 true).1.started = true ∧
    ((demo_session.start demo_global 7 true).1.stop
        (demo_session.start demo_global 7 true).2).1 = Except.ok () :=
  ⟨rfl,
   (((stop_idempotent_restart demo_session demo_global 7).2 demo_session
      demo_global rfl).2 (by decide)).1,
   (((stop_idempotent_restart demo_session demo_global 7).2 demo_session
      demo_global rfl).2 (by decide)).2.2.2⟩

/-- Installing a list of handlers with pairwise-distinct identities that are
all fresh for the backbone appends one backbone entry per handler, preserves
each handler's serializable attributes and identity, and records a prior
root level on every installed handler. -/
theorem install_all_spec (hs : List LogregatorHandler) :
    ∀ root : RootLogger,
    (∀ h ∈ hs, ∀ e ∈ root.handlers, e.hid ≠ h.hid) →
    (hs.map LogregatorHandler.hid).Nodup →
    (LogregatorProcess.install_all hs root).2.handlers
        = root.handlers ++ hs.map LogregatorHandler.entry ∧
    (LogregatorProcess.install_all hs root).1.map LogregatorHandler.entry
        = hs.map LogregatorHandler.entry ∧
    (LogregatorProcess.install_all hs root).1.map LogregatorHandler.hid
        = hs.map LogregatorHandler.hid ∧
    ∀ h2 ∈ (LogregatorProcess.install_all hs root).1,
      (h2.old_root_level).isSome = true := by
  induction hs with
  | nil =>
    intro root _ _
    simp [LogregatorProcess.install_all]
  | cons h t ih =>
    intro root hfresh hnodup
    have hreg : h.registered root = false :=
      registered_eq_false_of_fresh h root
        (hfresh h (List.mem_cons_self h t))
    have hinst : h.install root
        = ({ h with old_root_level := some root.level },
           ⟨NOTSET + 1, root.handlers ++ [h.entry]⟩) := by
      simp [LogregatorHandler.install, hreg]
    have hnodup2 : ((h :: t).map LogregatorHandler.hid).Nodup := hnodup
    rw [List.map_cons, List.nodup_cons] at hnodup2
    have hfresh2 : ∀ h2 ∈ t, ∀ e ∈ root.handlers ++ [h.entry],
        e.hid ≠ h2.hid := by
      intro h2 hh2 e he
      rcases List.mem_append.1 he with hbase | hnew
      · exact hfresh h2 (List.mem_cons_of_mem h hh2) e hbase
      · have he2 : e = h.entry := by simpa using hnew
        subst he2
        intro heq
        have heq2 : h.hid = h2.hid := heq
        exact hnodup2.1
          (heq2 ▸ List.mem_map_of_mem LogregatorHandler.hid hh2)
    have ihres := ih ⟨NOTSET + 1, root.handlers ++ [h.entry]⟩ hfresh2 hnodup2.2
    refine ⟨?_, ?_, ?_, ?_⟩
    · simp only [LogregatorProcess.install_all, hinst]
      rw [ihres.1]
      simp [List.append_assoc, LogregatorHandler.entry]
    · simp only [LogregatorProcess.install_all, hinst, List.map_cons]
      rw [ihres.2.1]
      rfl
    · simp only [LogregatorProcess.install_all, hinst, List.map_cons]
      rw [ihres.2.2.1]
    · intro h2 hh2
      simp only [LogregatorProcess.install_all, hinst] at hh2
      rcases List.mem_cons.1 hh2 with hhead | htail
      · subst hhead; rfl
      · exact ihres.2.2.2 h2 htail

/-- Uninstalling, in order, a list of properly installed handlers with
pairwise-distinct identities all fresh for the rest of the backbone removes
exactly their entries and raises nothing. -/
theorem uninstall_all_spec (hs : List LogregatorHandler) :
    ∀ (base : List RootHandler) (lvl : Nat),
    (∀ h ∈ hs, ∀ e ∈ base, e.hid ≠ h.hid) →
    (∀ h ∈ hs, (h.old_root_level).isSome = true) →
    (LogregatorProcess.uninstall_all hs
        ⟨lvl, base ++ hs.map LogregatorHandler.entry⟩).1 = Except.ok () ∧
    (LogregatorProcess.uninstall_all hs
        ⟨lvl, base ++ hs.map LogregatorHandler.entry⟩).2.handlers = base := by
  induction hs with
  | nil =>
    intro base lvl _ _
    simp [LogregatorProcess.uninstall_all]
  | cons h t ih =>
    intro base lvl hfresh hsome
    obtain ⟨l0, hl0⟩ :=
      Option.isSome_iff_exists.1 (hsome h (List.mem_cons_self h t))
    have hneg : ∀ b ∈ base, ¬ ((b.hid == h.hid) = true) := by
      intro b hb
      simpa using hfresh h (List.mem_cons_self h t) b hb
    have hreg : h.registered
        ⟨lvl, base ++ (h :: t).map LogregatorHandler.entry⟩ = true := by
      simp [LogregatorHandler.registered, LogregatorHandler.entry]
    have herase : (base ++ (h :: t).map LogregatorHandler.entry).eraseP
        (fun e => e.hid == h.hid) = base ++ t.map LogregatorHandler.entry := by
      rw [List.map_cons, List.eraseP_append_right _ hneg]
      simp [LogregatorHandler.entry]
    have huninst : h.uninstall ⟨lvl, base ++ (h :: t).map LogregatorHandler.entry⟩
        = Except.ok (h, ⟨l0, base ++ t.map LogregatorHandler.entry⟩) := by
      simp only [LogregatorHandler.uninstall, hreg, if_true, hl0, herase]
    have ihres := ih base l0
      (fun h2 hh2 e he => hfresh h2 (List.mem_cons_of_mem h hh2) e he)
      (fun h2 hh2 => hsome h2 (List.mem_cons_of_mem h hh2))
    constructor
    · simp only [LogregatorProcess.uninstall_all, huninst]
      exact ihres.1
    · simp only [LogregatorProcess.uninstall_all, huninst]
      exact ihres.2

/-- The handlers reconstructed in the child carry exactly the snapshot's
levels and queue references, under the chosen fresh identities. -/
theorem reconstruct_spec : ∀ (ids : List Nat) (snap : List (Nat × Nat)),
    ids.length = snap.length →
    (LogregatorProcess.reconstruct snap ids).map LogregatorHandler.hid
        = ids ∧
    (LogregatorProcess.reconstruct snap ids).map LogregatorHandler.entry
        = List.zipWith (fun i p => (⟨i, true, p.1, p.2⟩ : RootHandler))
            ids snap := by
  intro ids
  induction ids with
  | nil =>
    intro snap _
    simp [LogregatorProcess.reconstruct]
  | cons i it ih =>
    intro snap hlen
    cases snap with
    | nil => simp at hlen
    | cons p pt =>
      have ihres := ih pt (by simpa using hlen)
      simp only [LogregatorProcess.reconstruct, List.zipWith_cons_cons,
        List.map_cons] at ihres ⊢
      exact ⟨by rw [ihres.1], by rw [ihres.2]; rfl⟩

/-- C6: `LogregatorProcess` snapshots, in the parent, every installed
`LogregatorHandler` as a serializable `(level, queue-reference)` pair (and
nothing when none is installed); its `run()` installs one reconstructed
handler per snapshot entry on the child's backbone before the target
executes, and afterwards — whether the target terminated normally or
abnormally — every one of them has been uninstalled; an empty snapshot
installs nothing at all. -/
theorem logregator_process_scoped (proot : RootLogger)
    (snap : List (Nat × Nat)) (ids : List Nat) (root : RootLogger)
    (target : Except String Unit)
    (hlen : ids.length = snap.length) (hnodup : ids.Nodup)
    (hfresh : ∀ i ∈ ids, ∀ e ∈ root.handlers, e.hid ≠ i) :
    (∀ e ∈ proot.handlers, e.is_logregator = true →
      (e.level, e.queue_ref) ∈ LogregatorProcess.snapshot proot) ∧
    ((∀ e ∈ proot.handlers, e.is_logregator = false) →
      LogregatorProcess.snapshot proot = []) ∧
    (LogregatorProcess.run snap ids root target).1.handlers
      = root.handlers
        ++ List.zipWith (fun i p => (⟨i, true, p.1, p.2⟩ : RootHandler))
            ids snap ∧
    (LogregatorProcess.run snap ids root target).2.1 = target ∧
    (LogregatorProcess.run snap ids root target).2.2.handlers
      = root.handlers ∧
    (snap = [] →
      (LogregatorProcess.run snap ids root target).1 = root ∧
      (LogregatorProcess.run snap ids root target).2.2 = root) := by
  have hrec := reconstruct_spec ids snap hlen
  have hfreshh : ∀ h ∈ LogregatorProcess.reconstruct snap ids,
      ∀ e ∈ root.handlers, e.hid ≠ h.hid := by
    intro h hh e he
    exact hfresh h.hid
      (hrec.1 ▸ List.mem_map_of_mem LogregatorHandler.hid hh) e he
  have hnoduph : ((LogregatorProcess.reconstruct snap ids).map
      LogregatorHandler.hid).Nodup := by
    rw [hrec.1]; exact hnodup
  have hia := install_all_spec (LogregatorProcess.reconstruct snap ids)
    root hfreshh hnoduph
  have hfreshh2 : ∀ h ∈ (LogregatorProcess.install_all
        (LogregatorProcess.reconstruct snap ids) root).1,
      ∀ e ∈ root.handlers, e.hid ≠ h.hid := by
    intro h hh e he
    refine hfresh h.hid ?_ e he
    rw [← hrec.1, ← hia.2.2.1]
    exact List.mem_map_of_mem LogregatorHandler.hid hh
  have hre : (LogregatorProcess.install_all
        (LogregatorProcess.reconstruct snap ids) root).2
      = ⟨(LogregatorProcess.install_all
            (LogregatorProcess.reconstruct snap ids) root).2.level,
         root.handlers
           ++ (LogregatorProcess.install_all
                (LogregatorProcess.reconstruct snap ids) root).1.map
              LogregatorHandler.entry⟩ := by
    have h1 : (LogregatorProcess.install_all
          (LogregatorProcess.reconstruct snap ids) root).2.handlers
        = root.handlers
          ++ (LogregatorProcess.install_all
               (LogregatorProcess.reconstruct snap ids) root).1.map
             LogregatorHandler.entry := by
      rw [hia.2.1]; exact hia.1
    calc (LogregatorProcess.install_all
            (LogregatorProcess.reconstruct snap ids) root).2
        = ⟨(LogregatorProcess.install_all
              (LogregatorProcess.reconstruct snap ids) root).2.level,
           (LogregatorProcess.install_all
              (LogregatorProcess.reconstruct snap ids) root).2.handlers⟩ :=
          rfl
      _ = _ := by rw [h1]
  have hua := uninstall_all_spec
    (LogregatorProcess.install_all
      (LogregatorProcess.reconstruct snap ids) root).1
    root.handlers
    (LogregatorProcess.install_all
      (LogregatorProcess.reconstruct snap ids) root).2.level
    hfreshh2 hia.2.2.2
  have hu1 : (LogregatorProcess.uninstall_all
      (LogregatorProcess.install_all
        (LogregatorProcess.reconstruct snap ids) root).1
      (LogregatorProcess.install_all
        (LogregatorProcess.reconstruct snap ids) root).2).1
      = Except.ok () := by
    rw [hre]; exact hua.1
  have hu2 : (LogregatorProcess.uninstall_all
      (LogregatorProcess.install_all
        (LogregatorProcess.reconstruct snap ids) root).1
      (LogregatorProcess.install_all
        (LogregatorProcess.reconstruct snap ids) root).2).2.handlers
      = root.handlers := by
    rw [hre]; exact hua.2
  refine ⟨?_, ?_, ?_, ?_, ?_, ?_⟩
  · intro e he hlog
    exact List.mem_map.2 ⟨e, List.mem_filter.2 ⟨he, by simp [hlog]⟩, rfl⟩
  · intro hall
    simp only [LogregatorProcess.snapshot]
    rw [List.filter_eq_nil_iff.2 (fun e he => by simp [hall e he])]
    rfl
  · show (LogregatorProcess.install_all
        (LogregatorProcess.reconstruct snap ids) root).2.handlers = _
    rw [hia.1, hrec.2]
  · show (match (LogregatorProcess.uninstall_all
        (LogregatorProcess.install_all
          (LogregatorProcess.reconstruct snap ids) root).1
        (LogregatorProcess.install_all
          (LogregatorProcess.reconstruct snap ids) root).2).1 with
      | Except.error e => Except.error e
      | Except.ok _ => target) = target
    rw [hu1]
  · exact hu2
  · intro hsnap
    subst hsnap
    simp [LogregatorProcess.run, LogregatorProcess.reconstruct,
          LogregatorProcess.install_all, LogregatorProcess.uninstall_all]

/-- Witness for C6: a one-entry snapshot, a fresh child backbone, and a
target that terminates abnormally. -/
theorem logregator_process_scoped_witness :
    (LogregatorProcess.run [(20, 3)] [11] ⟨30, []⟩
        (Except.error "boom")).2.1 = Except.error "boom" ∧
    (LogregatorProcess.run [(20, 3)] [11] ⟨30, []⟩
        (Except.error "boom")).2.2.handlers = [] ∧
    (LogregatorProcess.run [(20, 3)] [11] ⟨30, []⟩
        (Except.error "boom")).1.handlers = [⟨11, true, 20, 3⟩] :=
  ⟨(logregator_process_scoped ⟨1, [⟨3, true, 20, 3⟩]⟩ [(20, 3)] [11] ⟨30, []⟩
      (Except.error "boom") (by decide) (by decide) (by decide)).2.2.2.1,
   by simpa using (logregator_process_scoped ⟨1, [⟨3, true, 20, 3⟩]⟩
      [(20, 3)] [11] ⟨30, []⟩ (Except.error "boom") (by decide) (by decide)
      (by decide)).2.2.2.2.1,
   by simpa using (logregator_process_scoped ⟨1, [⟨3, true, 20, 3⟩]⟩
      [(20, 3)] [11] ⟨30, []⟩ (Except.error "boom") (by decide) (by decide)
      (by decide)).2.2.1⟩
